import Mathlib

/-!
Verification of the UniFi → Cloudflare DDNS worker (`src/index.js`).

A shallow embedding of the worker's request-handling pipeline:
routing (`handleRequest`), HTTP Basic credential parsing
(`basicAuthentication`), query-parameter validation (`verifyParameters`),
the three-step Cloudflare client sequence (`findZone`, `findRecord`,
`updateRecord` inside `informAPI`), and the top-level error renderer
(the `addEventListener("fetch")` catch handler, `renderError`).

Remote behaviour is modelled by a `Provider` oracle giving the parsed
JSON body the worker would read from each `fetch` response; every
outbound call the worker issues is recorded in an `ApiCall` trace,
including the bearer token the worker places in the request headers.
JavaScript exceptions become `Except HttpException`; JS truthiness of
the `||` operator on strings/numbers is modelled explicitly.
-/

/-- The three exception classes share this shape: `status`, `statusText`,
`reason`, exactly the fields the catch handler reads. -/
structure HttpException where
  status : Nat
  statusText : String
  reason : String
deriving DecidableEq, Repr

/-- Constructor of `BadRequestException`: status 400, text `Bad Request`. -/
def BadRequestException (reason : String) : HttpException :=
  ⟨400, "Bad Request", reason⟩

/-- Constructor of `UnauthorizedException`: status 401, text `Unauthorized`
(declared in the source; never raised on any path). -/
def UnauthorizedException (reason : String) : HttpException :=
  ⟨401, "Unauthorized", reason⟩

/-- Constructor of `CloudflareApiException`: status 500, text `Internal Server Error`. -/
def CloudflareApiException (reason : String) : HttpException :=
  ⟨500, "Internal Server Error", reason⟩

/-- The fields of a `Response` the worker constructs: status, optional
status text, optional body (JS `null` body = `none`), and the literal
header list passed to the constructor. -/
structure WResponse where
  status : Nat
  statusText : Option String
  body : Option String
  headers : List (String × String)
deriving DecidableEq, Repr

/-- A Cloudflare zone as read by the worker: only `id` is accessed. -/
structure Zone where
  id : String
deriving DecidableEq, Repr, Inhabited

/-- A Cloudflare DNS record as read/written by the worker: `id` and
`zone_id` key the update URL, `content` is overwritten with the new IP. -/
structure DnsRecord where
  id : String
  zone_id : String
  content : String
deriving DecidableEq, Repr, Inhabited

/-- Parsed JSON body of a Cloudflare API response as the worker reads it:
`body.success` (compared with `!== true`) and `body.result` (a list whose
length and first element are used). -/
structure ApiBody (α : Type) where
  success : Bool
  result : List α
deriving DecidableEq, Repr

/-- Oracle for the remote API: the parsed body the worker would obtain
from each `fetch`, keyed by the query data in the request URL (zone name;
zone id and record name; the full record sent in the PUT).  One fixed
oracle models one fixed set of remote responses. -/
structure Provider where
  zones : String → ApiBody Zone
  records : String → String → ApiBody DnsRecord
  update : DnsRecord → ApiBody DnsRecord

/-- One outbound `fetch` issued by the worker, with the bearer token it
carries in its `Authorization: Bearer ${token}` header. -/
inductive ApiCall where
  | zoneLookup (token : String) (name : String)
  | recordLookup (token : String) (zoneId : String) (name : String)
  | recordUpdate (token : String) (record : DnsRecord)
deriving DecidableEq, Repr

/-- JS string coercion used when an `Option String` (a possibly-`null`
header or query value) is interpolated or assigned: `null` prints `null`. -/
def jsString : Option String → String
  | none => "null"
  | some s => s

/-- JS truthiness of a possibly-`null` string: `null` and `""` are falsy. -/
def jsTruthy : Option String → Bool
  | none => false
  | some s => s != ""

/-- Evaluation of `a || b` on a possibly-`null` string `a`, string fallback `b`. -/
def jsOrStr (a : Option String) (b : String) : String :=
  if jsTruthy a then jsString a else b

/-- Evaluation of `a || b` on a possibly-`undefined` number `a` (0 is falsy). -/
def jsOrNat (a : Option Nat) (b : Nat) : Nat :=
  match a with
  | none => b
  | some n => if n = 0 then b else n

/-- Evaluation of `a || null` on a possibly-`null` string: keep `a` when truthy. -/
def jsOrNull (a : Option String) : Option String :=
  if jsTruthy a then a else none

/-- The control-character class of the regex `/[\0-\x1F\x7F]/`. -/
def isCtl (c : Char) : Bool :=
  c.toNat ≤ 0x1F || c.toNat = 0x7F

/-- Test of the regex `/[\0-\x1F\x7F]/` against a string: some character
of the string is a control character. -/
def hasCtl (s : String) : Bool :=
  s.toList.any isCtl

/-- Model of `decoded.indexOf(":")` followed by the two `substring` calls: split at
the first colon, returning the parts before and after it, or `none` when
the string has no colon (index `-1`). -/
def splitFirstColon : List Char → Option (List Char × List Char)
  | [] => none
  | c :: cs =>
    if c = ':' then some ([], cs)
    else match splitFirstColon cs with
         | some (u, p) => some (c :: u, p)
         | none => none

/-- The credentials object returned by `basicAuthentication`. -/
structure Credentials where
  username : String
  password : String
deriving DecidableEq, Repr

/-- Model of `basicAuthentication` on the decoded Authorization payload:
the scheme split, `atob`, `TextDecoder` and `.normalize()` pipeline is
abstracted into the resulting string `decoded`; from there the source
takes `indexOf(":")`, rejects when the index is `-1` or the control
character regex matches, and otherwise returns the two substrings around
the first colon. -/
def basicAuthentication (decoded : String) : Except HttpException Credentials :=
  match splitFirstColon decoded.toList with
  | none => .error (BadRequestException "Invalid authorization value.")
  | some (u, p) =>
    if hasCtl decoded then .error (BadRequestException "Invalid authorization value.")
    else .ok ⟨⟨u⟩, ⟨p⟩⟩

/-- Model of `verifyParameters(url)`: fails unless `url.searchParams.get("hostname")`
is truthy (present and non-empty).  The preceding `!url.searchParams`
guard in the source can never fire, since a `URL` instance always carries
a `searchParams` object. -/
def verifyParameters (hostname : Option String) : Except HttpException Unit :=
  if jsTruthy hostname then .ok ()
  else .error (BadRequestException "You must specify a hostname")

/-- Model of `findZone(name)`: fetch the zone listing for `name`; reject when
`body.success !== true || body.result.length === 0`, else take
`body.result[0]`. -/
def findZone (p : Provider) (name : String) : Except HttpException Zone :=
  let body := p.zones name
  if body.success ≠ true ∨ body.result.length = 0 then
    .error (CloudflareApiException ("Failed to find zone '" ++ name ++ "'"))
  else
    .ok (body.result.headD default)

/-- Model of `findRecord(zone, name)`: fetch the record listing for `name` in `zone`;
reject when `body.success !== true || body.result.length === 0`, else take
`body.result[0]`. -/
def findRecord (p : Provider) (zone : Zone) (name : String) : Except HttpException DnsRecord :=
  let body := p.records zone.id name
  if body.success ≠ true ∨ body.result.length = 0 then
    .error (CloudflareApiException ("Failed to find dns record '" ++ name ++ "'"))
  else
    .ok (body.result.headD default)

/-- Model of `updateRecord(record, value)`: set `record.content = value`, PUT the
record; reject when `body.success !== true`, else return `body.result[0]`
(no emptiness check on this one; the caller discards the value). -/
def updateRecord (p : Provider) (record : DnsRecord) (value : String) :
    Except HttpException (Option DnsRecord) :=
  let record1 := { record with content := value }
  let body := p.update record1
  if body.success ≠ true then
    .error (CloudflareApiException "Failed to update dns record")
  else
    .ok body.result.head?

/-- Model of `informAPI(ip, url, name, token)`: read `hostname` from the query,
then run `findZone`, `findRecord`, `updateRecord` strictly in sequence,
stopping at the first failure; on success return the `good` response.
The second component records the outbound calls actually issued, in
order, each carrying the bearer token. -/
def informAPI (p : Provider) (ip : Option String) (hostnameParam : Option String)
    (name token : String) : Except HttpException WResponse × List ApiCall :=
  let hostname := jsString hostnameParam
  match findZone p name with
  | .error e => (.error e, [.zoneLookup token name])
  | .ok zone =>
    match findRecord p zone hostname with
    | .error e => (.error e, [.zoneLookup token name, .recordLookup token zone.id hostname])
    | .ok record =>
      let record1 := { record with content := jsString ip }
      match updateRecord p record (jsString ip) with
      | .error e =>
        (.error e,
         [.zoneLookup token name, .recordLookup token zone.id hostname,
          .recordUpdate token record1])
      | .ok _ =>
        (.ok ⟨200, none, some "good",
              [("Content-Type", "text/plain;charset=UTF-8"),
               ("Cache-Control", "no-store")]⟩,
         [.zoneLookup token name, .recordLookup token zone.id hostname,
          .recordUpdate token record1])

/-- The request data `handleRequest` reads: the URL's protocol (with its
trailing colon, as `new URL(...).protocol` yields it) and pathname, the
`cf-connecting-ip` and `x-forwarded-proto` headers, the Authorization
header (`some d` iff the header is present, `d` being its decoded
payload — see `basicAuthentication`), and the `hostname` query
parameter. -/
structure Request where
  protocol : String
  pathname : String
  cfConnectingIp : Option String
  xForwardedProto : Option String
  authDecoded : Option String
  hostnameParam : Option String
deriving DecidableEq, Repr

/-- Model of `handleRequest(request)`: enforce HTTPS, then dispatch on pathname:
`/myip` echoes the caller address; `/nic/update` and `/update` require an
Authorization header, parse credentials, verify parameters, and delegate
to `informAPI`; `/favicon.ico` and `/robots.txt` answer 204; anything
else 404.  The second component is the trace of outbound provider
calls. -/
def handleRequest (p : Provider) (req : Request) :
    Except HttpException WResponse × List ApiCall :=
  let reqip := req.cfConnectingIp
  if req.protocol ≠ "https:" ∨ req.xForwardedProto ≠ some "https" then
    (.error (BadRequestException "Please use a HTTPS connection."), [])
  else if req.pathname = "/myip" then
    (.ok ⟨200, none, reqip, []⟩, [])
  else if req.pathname = "/nic/update" ∨ req.pathname = "/update" then
    match req.authDecoded with
    | some d =>
      match basicAuthentication d with
      | .error e => (.error e, [])
      | .ok cred =>
        match verifyParameters req.hostnameParam with
        | .error e => (.error e, [])
        | .ok _ => informAPI p reqip req.hostnameParam cred.username cred.password
    | none => (.error (BadRequestException "Please provide valid credentials."), [])
  else if req.pathname = "/favicon.ico" ∨ req.pathname = "/robots.txt" then
    (.ok ⟨204, none, none, []⟩, [])
  else
    (.ok ⟨404, none, some "Not Found.", []⟩, [])

/-- The error object as the catch handler sees it: the three exception
classes above populate `status`/`statusText`/`reason`; any other thrown
value may instead carry only a `stack`. -/
structure JsError where
  status : Option Nat
  statusText : Option String
  reason : Option String
  stack : Option String
deriving DecidableEq, Repr

/-- How an `HttpException` appears to the catch handler. -/
def toJsError (e : HttpException) : JsError :=
  ⟨some e.status, some e.statusText, some e.reason, none⟩

/-- The catch handler of `addEventListener("fetch")`:
`message = err.reason || err.stack || "Unknown Error"`, rendered with
`status: err.status || 500`, `statusText: err.statusText || null`,
plain-text content type, `Cache-Control: no-store`, and
`Content-Length: message.length`. -/
def renderError (err : JsError) : WResponse :=
  let message := jsOrStr err.reason (jsOrStr err.stack "Unknown Error")
  { status := jsOrNat err.status 500
    statusText := jsOrNull err.statusText
    body := some message
    headers := [("Content-Type", "text/plain;charset=UTF-8"),
                ("Cache-Control", "no-store"),
                ("Content-Length", toString message.length)] }

/-- Decidable equality of `Except`, for evaluating runs on concrete inputs. -/
instance {ε α : Type} [DecidableEq ε] [DecidableEq α] : DecidableEq (Except ε α) := fun x y =>
  match x, y with
  | .ok a, .ok b =>
    if h : a = b then .isTrue (by rw [h]) else .isFalse (fun hc => by cases hc; exact h rfl)
  | .error a, .error b =>
    if h : a = b then .isTrue (by rw [h]) else .isFalse (fun hc => by cases hc; exact h rfl)
  | .ok _, .error _ => .isFalse (fun hc => by cases hc)
  | .error _, .ok _ => .isFalse (fun hc => by cases hc)

/-- A provider whose zone listing always reports failure: the very first
remote call already fails. -/
def failingProvider : Provider :=
  ⟨fun _ => ⟨false, []⟩, fun _ _ => ⟨false, []⟩, fun _ => ⟨false, []⟩⟩

/-- A provider on which all three calls succeed, serving one zone `z1`
holding one record `r1`. -/
def happyProvider : Provider :=
  ⟨fun _ => ⟨true, [⟨"z1"⟩]⟩,
   fun _ _ => ⟨true, [⟨"r1", "z1", "198.51.100.9"⟩]⟩,
   fun r => ⟨true, [r]⟩⟩

/-- A well-formed update request: HTTPS, `/nic/update`, credentials
`example.com` / `tok123`, hostname `host.example.com`. -/
def sampleUpdateRequest : Request :=
  ⟨"https:", "/nic/update", some "203.0.113.7", some "https",
   some "example.com:tok123", some "host.example.com"⟩

/-- Splitting via `indexOf` and `substring`: when `u` has no colon, the first
colon of `u ++ ':' :: p` is the displayed one, and the parts are `u` and
`p`. -/
theorem splitFirstColon_append (u p : List Char) (hu : ':' ∉ u) :
    splitFirstColon (u ++ ':' :: p) = some (u, p) := by
  induction u with
  | nil => simp [splitFirstColon]
  | cons c cs ih =>
    have hc : c ≠ ':' := fun h => hu (h ▸ List.mem_cons_self c cs)
    have hcs : ':' ∉ cs := fun h => hu (List.mem_cons_of_mem c h)
    simp [splitFirstColon, hc, ih hcs]

/-- Character list of a `u ++ ":" ++ p` payload. -/
theorem toList_colon_append (u p : String) :
    (u ++ ":" ++ p).toList = u.toList ++ ':' :: p.toList := by
  show (u ++ ":" ++ p).data = u.data ++ ':' :: p.data
  rw [String.data_append, String.data_append, List.append_assoc]
  rfl

/-- Parsing a well-formed payload with `basicAuthentication` returns the parts
around the first colon. -/
theorem basicAuthentication_ok (u p : String) (hu : ':' ∉ u.toList)
    (hctl : hasCtl (u ++ ":" ++ p) = false) :
    basicAuthentication (u ++ ":" ++ p) = .ok ⟨u, p⟩ := by
  unfold basicAuthentication
  rw [toList_colon_append, splitFirstColon_append _ _ hu, hctl]
  simp

/-- No colon in the list means `indexOf` misses (`-1`). -/
theorem splitFirstColon_eq_none (l : List Char) (h : ':' ∉ l) :
    splitFirstColon l = none := by
  induction l with
  | nil => rfl
  | cons c cs ih =>
    have hc : ¬ c = ':' := fun e => h (e ▸ List.mem_cons_self c cs)
    simp [splitFirstColon, hc, ih (fun m => h (List.mem_cons_of_mem c m))]

/-- C2: a request whose URL scheme is not `https` or whose
`x-forwarded-proto` header does not assert `https` is rejected with the
400 Bad Request exception before any dispatch on the path: the result is
the same for every pathname and no provider call is issued. -/
theorem c2_insecure_transport_rejected (p : Provider) (req : Request)
    (h : req.protocol ≠ "https:" ∨ req.xForwardedProto ≠ some "https") :
    handleRequest p req =
      (.error (BadRequestException "Please use a HTTPS connection."), []) ∧
    (BadRequestException "Please use a HTTPS connection.").status = 400 := by
  refine ⟨?_, rfl⟩
  unfold handleRequest
  rw [if_pos h]

/-- C2 witness: a plain-HTTP request to `/myip` is rejected with 400. -/
theorem c2_witness :
    handleRequest failingProvider
      ⟨"http:", "/myip", some "203.0.113.7", none, none, none⟩ =
      (.error (BadRequestException "Please use a HTTPS connection."), []) ∧
    (BadRequestException "Please use a HTTPS connection.").status = 400 :=
  c2_insecure_transport_rejected failingProvider _ (Or.inl (by decide))

/-- C5: a decoded Authorization payload with at least one colon and no
control character parses into the part before the first colon as the
username and the whole remainder (which may itself contain colons) as
the password. -/
theorem c5_split_on_first_colon (u p : String) (hu : ':' ∉ u.toList)
    (hctl : hasCtl (u ++ ":" ++ p) = false) :
    basicAuthentication (u ++ ":" ++ p) = .ok ⟨u, p⟩ :=
  basicAuthentication_ok u p hu hctl

/-- C5 witness: `alice:p@ss:word` parses as `alice` / `p@ss:word`. -/
theorem c5_witness :
    basicAuthentication ("alice" ++ ":" ++ "p@ss:word") =
      .ok ⟨"alice", "p@ss:word"⟩ :=
  c5_split_on_first_colon "alice" "p@ss:word" (by decide) (by decide)

/-- C6 counterexample: on a payload holding a NUL byte, parsing does fail
with status 400, but the reason string is `Invalid authorization value.`
(with a trailing period), not `Invalid authorization value` as claimed. -/
theorem c6_counterexample :
    basicAuthentication "alice\x00:pw" =
      .error ⟨400, "Bad Request", "Invalid authorization value."⟩ ∧
    basicAuthentication "alice\x00:pw" ≠
      .error ⟨400, "Bad Request", "Invalid authorization value"⟩ := by
  exact ⟨by decide, by decide⟩

/-- C6 amended: a decoded payload containing an ASCII control character
(0x00–0x1F or 0x7F), or containing no colon, is rejected with the
400 Bad Request exception whose reason is `Invalid authorization value.`
(including the trailing period). -/
theorem c6_ctl_or_no_colon_rejected (d : String)
    (h : hasCtl d = true ∨ ':' ∉ d.toList) :
    basicAuthentication d =
      .error (BadRequestException "Invalid authorization value.") := by
  unfold basicAuthentication
  rcases h with h | h
  · cases hs : splitFirstColon d.toList with
    | none => rfl
    | some up =>
      rcases up with ⟨u, q⟩
      rw [h]
      rfl
  · rw [splitFirstColon_eq_none _ h]

/-- C6 amended witness: a colon-free payload is rejected with the
trailing-period reason. -/
theorem c6_witness :
    basicAuthentication "nocolonhere" =
      .error (BadRequestException "Invalid authorization value.") :=
  c6_ctl_or_no_colon_rejected "nocolonhere" (Or.inr (by decide))

/-- C4: on a secure update request with parsed credentials but a missing
or empty `hostname` query parameter, the handler fails with the
400 Bad Request exception `You must specify a hostname` and the provider
call trace is empty. -/
theorem c4_missing_hostname_rejected (p : Provider) (req : Request)
    (d : String) (cred : Credentials)
    (hp : req.protocol = "https:") (hx : req.xForwardedProto = some "https")
    (hpath : req.pathname = "/nic/update" ∨ req.pathname = "/update")
    (ha : req.authDecoded = some d)
    (hcred : basicAuthentication d = .ok cred)
    (hh : req.hostnameParam = none ∨ req.hostnameParam = some "") :
    handleRequest p req =
      (.error (BadRequestException "You must specify a hostname"), []) := by
  obtain ⟨pr, pa, ip, fw, au, hn⟩ := req
  dsimp only at hp hx ha hh hpath
  subst hp hx ha
  rcases hpath with h | h <;> subst h <;>
    rcases hh with h | h <;> subst h <;>
      simp [handleRequest, hcred, verifyParameters, jsTruthy]

/-- C4 witness: `/update` with credentials but empty `hostname`. -/
theorem c4_witness :
    handleRequest failingProvider
      ⟨"https:", "/update", some "203.0.113.7", some "https",
       some "example.com:tok123", some ""⟩ =
      (.error (BadRequestException "You must specify a hostname"), []) :=
  c4_missing_hostname_rejected failingProvider _ "example.com:tok123"
    ⟨"example.com", "tok123"⟩ rfl rfl (Or.inr rfl) rfl (by decide) (Or.inr rfl)

/-- C7 counterexample: a secure `/nic/update` request without an
Authorization header is rejected with status 400, but the reason is
`Please provide valid credentials.`, not `missing credentials`. -/
theorem c7_counterexample :
    (handleRequest failingProvider
      ⟨"https:", "/nic/update", some "203.0.113.7", some "https",
       none, some "host.example.com"⟩).1 =
      .error ⟨400, "Bad Request", "Please provide valid credentials."⟩ ∧
    (handleRequest failingProvider
      ⟨"https:", "/nic/update", some "203.0.113.7", some "https",
       none, some "host.example.com"⟩).1 ≠
      .error ⟨400, "Bad Request", "missing credentials"⟩ := by
  exact ⟨by decide, by decide⟩

/-- C7 amended: on either update path over secure transport, a request
without an Authorization header fails with the 400 Bad Request exception
whose reason is `Please provide valid credentials.`, and no provider
call is issued. -/
theorem c7_missing_auth_rejected (p : Provider) (req : Request)
    (hp : req.protocol = "https:") (hx : req.xForwardedProto = some "https")
    (hpath : req.pathname = "/nic/update" ∨ req.pathname = "/update")
    (ha : req.authDecoded = none) :
    handleRequest p req =
      (.error (BadRequestException "Please provide valid credentials."), []) := by
  obtain ⟨pr, pa, ip, fw, au, hn⟩ := req
  dsimp only at hp hx ha hpath
  subst hp hx ha
  rcases hpath with h | h <;> subst h <;> simp [handleRequest]

/-- C7 amended witness. -/
theorem c7_witness :
    handleRequest failingProvider
      ⟨"https:", "/nic/update", some "203.0.113.7", some "https",
       none, some "host.example.com"⟩ =
      (.error (BadRequestException "Please provide valid credentials."), []) :=
  c7_missing_auth_rejected failingProvider _ rfl rfl (Or.inl rfl) rfl

/-- C1: on a secure update request with parsed credentials and a
non-empty hostname, if the zone lookup, record lookup and record update
all succeed, the handler answers status 200, body `good`, content type
`text/plain;charset=UTF-8`, and `Cache-Control: no-store`. -/
theorem c1_success_returns_good (p : Provider) (req : Request)
    (d : String) (cred : Credentials) (zone : Zone) (record : DnsRecord)
    (res : Option DnsRecord)
    (hp : req.protocol = "https:") (hx : req.xForwardedProto = some "https")
    (hpath : req.pathname = "/nic/update" ∨ req.pathname = "/update")
    (ha : req.authDecoded = some d)
    (hcred : basicAuthentication d = .ok cred)
    (hhost : jsTruthy req.hostnameParam = true)
    (hz : findZone p cred.username = .ok zone)
    (hr : findRecord p zone (jsString req.hostnameParam) = .ok record)
    (hu : updateRecord p record (jsString req.cfConnectingIp) = .ok res) :
    (handleRequest p req).1 =
      .ok ⟨200, none, some "good",
           [("Content-Type", "text/plain;charset=UTF-8"),
            ("Cache-Control", "no-store")]⟩ := by
  obtain ⟨pr, pa, ip, fw, au, hn⟩ := req
  dsimp only at hp hx ha hhost hz hr hu hpath
  subst hp hx ha
  rcases hpath with h | h <;> subst h <;>
    simp [handleRequest, informAPI, verifyParameters, hcred, hhost, hz, hr, hu]

/-- C1 witness: the happy provider on the sample update request. -/
theorem c1_witness :
    (handleRequest happyProvider sampleUpdateRequest).1 =
      .ok ⟨200, none, some "good",
           [("Content-Type", "text/plain;charset=UTF-8"),
            ("Cache-Control", "no-store")]⟩ :=
  c1_success_returns_good happyProvider sampleUpdateRequest
    "example.com:tok123" ⟨"example.com", "tok123"⟩ ⟨"z1"⟩
    ⟨"r1", "z1", "198.51.100.9"⟩ (some ⟨"r1", "z1", "203.0.113.7"⟩)
    rfl rfl (Or.inl rfl) rfl (by decide) rfl (by decide) (by decide) (by decide)

/-- C3: on a secure update request with parsed credentials and a
non-empty hostname, if the provider's zone listing reports failure or
returns zero matches, the handler fails with the 500 exception
`Failed to find zone '<name>'` and the trace holds exactly the one zone
lookup: no record lookup and no record update is issued. -/
theorem c3_zone_failure_short_circuits (p : Provider) (req : Request)
    (d : String) (cred : Credentials)
    (hp : req.protocol = "https:") (hx : req.xForwardedProto = some "https")
    (hpath : req.pathname = "/nic/update" ∨ req.pathname = "/update")
    (ha : req.authDecoded = some d)
    (hcred : basicAuthentication d = .ok cred)
    (hhost : jsTruthy req.hostnameParam = true)
    (hz : (p.zones cred.username).success ≠ true ∨
          (p.zones cred.username).result.length = 0) :
    handleRequest p req =
      (.error (CloudflareApiException
         ("Failed to find zone '" ++ cred.username ++ "'")),
       [ApiCall.zoneLookup cred.password cred.username]) := by
  obtain ⟨pr, pa, ip, fw, au, hn⟩ := req
  dsimp only at hp hx ha hhost hpath
  subst hp hx ha
  have hfz : findZone p cred.username =
      .error (CloudflareApiException
        ("Failed to find zone '" ++ cred.username ++ "'")) := by
    unfold findZone
    rw [if_pos hz]
  rcases hpath with h | h <;> subst h <;>
    simp [handleRequest, informAPI, verifyParameters, hcred, hhost, hfz]

/-- C3 witness: the failing provider on the sample update request. -/
theorem c3_witness :
    handleRequest failingProvider sampleUpdateRequest =
      (.error (CloudflareApiException "Failed to find zone 'example.com'"),
       [ApiCall.zoneLookup "tok123" "example.com"]) :=
  c3_zone_failure_short_circuits failingProvider sampleUpdateRequest
    "example.com:tok123" ⟨"example.com", "tok123"⟩
    rfl rfl (Or.inl rfl) rfl (by decide) rfl (Or.inl (by decide))

/-- Shape of the `informAPI` call trace: the first outbound call is
always the zone lookup keyed by `name`, and any record lookup it makes
is keyed by the hostname value. -/
theorem informAPI_trace_shape (p : Provider) (ip hostnameParam : Option String)
    (name token : String) :
    (informAPI p ip hostnameParam name token).2.head? =
      some (ApiCall.zoneLookup token name) ∧
    ∀ t z n, ApiCall.recordLookup t z n ∈ (informAPI p ip hostnameParam name token).2 →
      n = jsString hostnameParam := by
  unfold informAPI
  cases hfz : findZone p name with
  | error e => simp
  | ok zone =>
    cases hfr : findRecord p zone (jsString hostnameParam) with
    | error e => simp [hfr]
    | ok record =>
      cases hur : updateRecord p record (jsString ip) with
      | error e => simp [hfr, hur]
      | ok r => simp [hfr, hur]

/-- C10: whenever a secure update request with parsed credentials and
hostname parameter `h` reaches the provider client, the first outbound
call is the zone lookup keyed by the Basic-auth username, and every
record lookup is keyed by `h` — the hostname parameter never keys the
zone lookup. -/
theorem c10_zone_lookup_keyed_by_username (p : Provider) (req : Request)
    (d h : String) (cred : Credentials)
    (hp : req.protocol = "https:") (hx : req.xForwardedProto = some "https")
    (hpath : req.pathname = "/nic/update" ∨ req.pathname = "/update")
    (ha : req.authDecoded = some d)
    (hcred : basicAuthentication d = .ok cred)
    (hh : req.hostnameParam = some h) (hne : h ≠ "") :
    (handleRequest p req).2.head? =
      some (ApiCall.zoneLookup cred.password cred.username) ∧
    ∀ t z n, ApiCall.recordLookup t z n ∈ (handleRequest p req).2 → n = h := by
  obtain ⟨pr, pa, ip, fw, au, hn⟩ := req
  dsimp only at hp hx ha hh hpath
  subst hp hx ha hh
  have hhost : jsTruthy (some h) = true := by
    simp [jsTruthy, hne]
  have := informAPI_trace_shape p ip (some h) cred.username cred.password
  rcases hpath with hq | hq <;> subst hq <;>
    simpa [handleRequest, verifyParameters, hcred, hhost, jsString] using this

/-- C10 witness: on the happy provider the trace starts with the zone
lookup for `example.com` (the username), and its record lookup uses
`host.example.com` (the hostname parameter). -/
theorem c10_witness :
    (handleRequest happyProvider sampleUpdateRequest).2.head? =
      some (ApiCall.zoneLookup "tok123" "example.com") ∧
    ∀ t z n,
      ApiCall.recordLookup t z n ∈ (handleRequest happyProvider sampleUpdateRequest).2 →
      n = "host.example.com" :=
  c10_zone_lookup_keyed_by_username happyProvider sampleUpdateRequest
    "example.com:tok123" "host.example.com" ⟨"example.com", "tok123"⟩
    rfl rfl (Or.inl rfl) rfl (by decide) rfl (by decide)

/-- Failures of `basicAuthentication` carry only the fixed invalid-value error. -/
theorem basicAuthentication_error_shape (d : String) (e : HttpException)
    (h : basicAuthentication d = .error e) :
    e = BadRequestException "Invalid authorization value." := by
  unfold basicAuthentication at h
  split at h
  · cases h
    rfl
  · split at h
    · cases h
      rfl
    · cases h

/-- Failures of `verifyParameters` carry only the fixed hostname error. -/
theorem verifyParameters_error_shape (hn : Option String) (e : HttpException)
    (h : verifyParameters hn = .error e) :
    e = BadRequestException "You must specify a hostname" := by
  unfold verifyParameters at h
  split at h
  · cases h
  · cases h
    rfl

/-- Failures of `findZone` carry only the zone error for its name. -/
theorem findZone_error_shape (p : Provider) (name : String) (e : HttpException)
    (h : findZone p name = .error e) :
    e = CloudflareApiException ("Failed to find zone '" ++ name ++ "'") := by
  unfold findZone at h
  dsimp only at h
  split at h
  · cases h
    rfl
  · cases h

/-- Failures of `findRecord` carry only the record error for its name. -/
theorem findRecord_error_shape (p : Provider) (zone : Zone) (name : String)
    (e : HttpException) (h : findRecord p zone name = .error e) :
    e = CloudflareApiException ("Failed to find dns record '" ++ name ++ "'") := by
  unfold findRecord at h
  dsimp only at h
  split at h
  · cases h
    rfl
  · cases h

/-- Failures of `updateRecord` carry only the fixed update error. -/
theorem updateRecord_error_shape (p : Provider) (record : DnsRecord)
    (value : String) (e : HttpException)
    (h : updateRecord p record value = .error e) :
    e = CloudflareApiException "Failed to update dns record" := by
  unfold updateRecord at h
  dsimp only at h
  split at h
  · cases h
    rfl
  · cases h

/-- Failures of `informAPI` carry only one of the three provider errors. -/
theorem informAPI_error_shape (p : Provider) (ip hn : Option String)
    (name token : String) (e : HttpException)
    (h : (informAPI p ip hn name token).1 = .error e) :
    e = CloudflareApiException ("Failed to find zone '" ++ name ++ "'") ∨
    e = CloudflareApiException ("Failed to find dns record '" ++ jsString hn ++ "'") ∨
    e = CloudflareApiException "Failed to update dns record" := by
  unfold informAPI at h
  dsimp only at h
  split at h
  · rename_i e1 he1
    cases h
    exact Or.inl (findZone_error_shape p name _ he1)
  · rename_i zone hz
    split at h
    · rename_i e1 he1
      cases h
      exact Or.inr (Or.inl (findRecord_error_shape p zone _ _ he1))
    · rename_i record hr
      split at h
      · rename_i e1 he1
        cases h
        exact Or.inr (Or.inr (updateRecord_error_shape p record _ _ he1))
      · cases h

/-- A string starting with a non-empty literal prefix is non-empty. -/
theorem prefixed_append_ne_empty (a b c : String) (ha : a.data ≠ []) :
    a ++ b ++ c ≠ "" := by
  intro hc
  apply ha
  have hdata : (a ++ b ++ c).data = "".data := congrArg String.data hc
  rw [String.data_append, String.data_append] at hdata
  exact (List.append_eq_nil.mp ((List.append_eq_nil.mp hdata).1)).1

/-- Every failure `handleRequest` can produce carries status 400 with
text `Bad Request` or status 500 with text `Internal Server Error`, and
a non-empty reason. -/
theorem handleRequest_error_shape (p : Provider) (req : Request) (e : HttpException)
    (he : (handleRequest p req).1 = .error e) :
    (e.status = 400 ∧ e.statusText = "Bad Request" ∨
     e.status = 500 ∧ e.statusText = "Internal Server Error") ∧
    e.reason ≠ "" := by
  unfold handleRequest at he
  dsimp only at he
  split at he
  · cases he
    exact ⟨Or.inl ⟨rfl, rfl⟩, by decide⟩
  · split at he
    · cases he
    · split at he
      · split at he
        · split at he
          · rename_i e1 he1
            cases he
            rw [basicAuthentication_error_shape _ _ he1]
            exact ⟨Or.inl ⟨rfl, rfl⟩, by decide⟩
          · split at he
            · rename_i e1 he1
              cases he
              rw [verifyParameters_error_shape _ _ he1]
              exact ⟨Or.inl ⟨rfl, rfl⟩, by decide⟩
            · rcases informAPI_error_shape _ _ _ _ _ _ he with h | h | h <;>
                rw [h] <;>
                refine ⟨Or.inr ⟨rfl, rfl⟩, ?_⟩
              · exact prefixed_append_ne_empty _ _ _ (by decide)
              · exact prefixed_append_ne_empty _ _ _ (by decide)
              · decide
        · cases he
          exact ⟨Or.inl ⟨rfl, rfl⟩, by decide⟩
      · split at he
        · cases he
        · cases he

/-- C8: every failure the handler produces is rendered with the
failure's status code and status text, a plain-text body equal to the
failure's reason, caching disabled, and a `Content-Length` equal to the
body's length; when no reason (and no stack) is available the body falls
back to the generic `Unknown Error` diagnostic, rendered the same way. -/
theorem c8_error_rendering (p : Provider) (req : Request) (e : HttpException)
    (he : (handleRequest p req).1 = .error e) :
    renderError (toJsError e) =
      ⟨e.status, some e.statusText, some e.reason,
       [("Content-Type", "text/plain;charset=UTF-8"),
        ("Cache-Control", "no-store"),
        ("Content-Length", toString e.reason.length)]⟩ ∧
    renderError ⟨none, none, none, none⟩ =
      ⟨500, none, some "Unknown Error",
       [("Content-Type", "text/plain;charset=UTF-8"),
        ("Cache-Control", "no-store"),
        ("Content-Length", toString (String.length "Unknown Error"))]⟩ := by
  obtain ⟨hst, hre⟩ := handleRequest_error_shape p req e he
  refine ⟨?_, rfl⟩
  have hrt : jsTruthy (some e.reason) = true := by
    simp [jsTruthy, hre]
  rcases hst with ⟨h2, h3⟩ | ⟨h2, h3⟩ <;>
    simp [renderError, toJsError, jsOrStr, jsOrNat, jsOrNull, jsString, hrt, h2, h3] <;>
    decide

/-- C8 witness: the zone-lookup failure from the failing provider is
rendered as a 500 with its reason as body and matching content length. -/
theorem c8_witness :
    renderError (toJsError (CloudflareApiException "Failed to find zone 'example.com'")) =
      ⟨500, some "Internal Server Error", some "Failed to find zone 'example.com'",
       [("Content-Type", "text/plain;charset=UTF-8"),
        ("Cache-Control", "no-store"),
        ("Content-Length", toString (String.length "Failed to find zone 'example.com'"))]⟩ ∧
    renderError ⟨none, none, none, none⟩ =
      ⟨500, none, some "Unknown Error",
       [("Content-Type", "text/plain;charset=UTF-8"),
        ("Cache-Control", "no-store"),
        ("Content-Length", toString (String.length "Unknown Error"))]⟩ :=
  c8_error_rendering failingProvider sampleUpdateRequest
    (CloudflareApiException "Failed to find zone 'example.com'") (by decide)

/-- The response/error component of `informAPI` does not depend on the
bearer token: the token reaches only the outbound request headers
(recorded in the trace), never the result. -/
theorem informAPI_fst_token_independent (p : Provider) (ip hn : Option String)
    (name t₁ t₂ : String) :
    (informAPI p ip hn name t₁).1 = (informAPI p ip hn name t₂).1 := by
  unfold informAPI
  cases hfz : findZone p name with
  | error e => rfl
  | ok zone =>
    cases hfr : findRecord p zone (jsString hn) with
    | error e => simp [hfr]
    | ok record =>
      cases hur : updateRecord p record (jsString ip) with
      | error e => simp [hfr, hur]
      | ok r => simp [hfr, hur]

/-- C9 counterexample: the bearer token is the Basic-auth password; when
the caller uses the same string as username and password, a failing zone
lookup produces a reason that contains the token verbatim. -/
theorem c9_counterexample :
    basicAuthentication "secret:secret" = .ok ⟨"secret", "secret"⟩ ∧
    (handleRequest failingProvider
      ⟨"https:", "/update", some "203.0.113.7", some "https",
       some "secret:secret", some "host.example.com"⟩).1 =
      .error (CloudflareApiException "Failed to find zone 'secret'") ∧
    "secret".toList <:+: "Failed to find zone 'secret'".toList := by
  exact ⟨by decide, by decide, by decide⟩

/-- C9 amended: the response (and any error reason in it) is independent
of the token's value — two requests identical except for the password
part of the credential, run against the same provider responses, yield
the same response or failure; the token can therefore only occur in a
reason by coinciding with the username or hostname text. -/
theorem c9_token_noninterference (p : Provider) (req : Request) (u t₁ t₂ : String)
    (hu : ':' ∉ u.toList)
    (h₁ : hasCtl (u ++ ":" ++ t₁) = false)
    (h₂ : hasCtl (u ++ ":" ++ t₂) = false) :
    (handleRequest p { req with authDecoded := some (u ++ ":" ++ t₁) }).1 =
    (handleRequest p { req with authDecoded := some (u ++ ":" ++ t₂) }).1 := by
  obtain ⟨pr, pa, ip, fw, au, hn⟩ := req
  unfold handleRequest
  dsimp only
  rw [basicAuthentication_ok u t₁ hu h₁, basicAuthentication_ok u t₂ hu h₂]
  split
  · rfl
  · split
    · rfl
    · split
      · dsimp only
        split
        · rfl
        · exact informAPI_fst_token_independent p ip hn u t₁ t₂
      · split
        · rfl
        · rfl

/-- C9 amended witness: changing only the token leaves the zone-failure
response unchanged. -/
theorem c9_witness :
    (handleRequest failingProvider
      ⟨"https:", "/update", some "203.0.113.7", some "https",
       some ("example.com" ++ ":" ++ "tokA"), some "host.example.com"⟩).1 =
    (handleRequest failingProvider
      ⟨"https:", "/update", some "203.0.113.7", some "https",
       some ("example.com" ++ ":" ++ "tokB"), some "host.example.com"⟩).1 :=
  c9_token_noninterference failingProvider
    ⟨"https:", "/update", some "203.0.113.7", some "https",
     none, some "host.example.com"⟩
    "example.com" "tokA" "tokB" (by decide) (by decide) (by decide)
